import Mathlib

/-!
Shallow embedding of the signal-enrichment and pattern-detection core of the
bus-agent repository, together with theorems settling the frozen claims.

Conventions used throughout:
* Python floats are modelled as `ℚ` where the source only does field
  arithmetic and comparisons, and as `ℝ` where a square root occurs
  (cosine similarity norms, `acceleration ** 0.5`).
* Python `None` and "absent" values are modelled as `Option`.
* Language-model calls are modelled by passing the parsed outcome of the
  call as an explicit oracle argument (`none` = call or parse failure),
  and each embedded function that can issue a call also returns the number
  of calls it made, so that "zero model calls" claims are statable.
* Python string operations are modelled on `List Char` (`String.data`).
-/

set_option maxHeartbeats 1600000

/-- The six-factor thesis score vector (`ThesisScores` in
`src/database/models.py`): each factor is an optional integer. -/
structure ThesisScores where
  demand_evidence : Option ℤ
  competition_gap : Option ℤ
  trend_timing : Option ℤ
  solo_buildability : Option ℤ
  clear_monetisation : Option ℤ
  regulatory_simplicity : Option ℤ
deriving DecidableEq, Repr

/-- The all-unset score vector, the default `ThesisScores()`. -/
def ThesisScores.empty : ThesisScores :=
  ⟨none, none, none, none, none, none⟩

/-- The sentinel vector with all six factors equal to 1, returned by the
disqualification pre-check in `ThesisScorer.score`. -/
def ThesisScores.allOnes : ThesisScores :=
  ⟨some 1, some 1, some 1, some 1, some 1, some 1⟩

/-- The fixed `DISQUALIFIED_INDUSTRIES` list from `src/utils/config.py`. -/
def DISQUALIFIED_INDUSTRIES : List String :=
  ["financial services", "fintech", "banking", "lending", "payments",
   "investing", "cryptocurrency", "trading",
   "healthcare", "healthtech", "medical", "telehealth", "patient data",
   "medical devices",
   "legal", "legal tech", "law", "legal advice",
   "insurance", "insurtech",
   "gambling", "betting", "casino", "sports betting",
   "pharmaceuticals", "cannabis", "marijuana", "firearms", "weapons",
   "government contracting", "controlled substances"]

/-- Python substring containment `needle in hay` on character lists. -/
def py_in (needle : List Char) : List Char → Bool
  | [] => needle.isEmpty
  | c :: t => needle.isPrefixOf (c :: t) || py_in needle t

/-- Python `str.lower()` (the source only compares ASCII industry names). -/
def py_lower (s : String) : String :=
  ⟨s.data.map Char.toLower⟩

/-- `is_disqualified_industry` from `src/utils/config.py`: case-insensitive
substring match in either direction against the fixed list. -/
def is_disqualified_industry (industry : String) : Bool :=
  let industry_lower := py_lower industry
  DISQUALIFIED_INDUSTRIES.any fun disqualified =>
    py_in (py_lower disqualified).data industry_lower.data ||
      py_in industry_lower.data (py_lower disqualified).data

/-- Parsed outcome of the thesis-scoring model call: the optional
model-asserted disqualification flag and the six raw factor values
(already collapsed through the shape handling of `_extract_score`:
a present numeric score or nothing). -/
structure LLMScoreResult where
  disqualified : Bool
  disqualification_reason : Option String
  demand_evidence : Option ℤ
  competition_gap : Option ℤ
  trend_timing : Option ℤ
  solo_buildability : Option ℤ
  clear_monetisation : Option ℤ
  regulatory_simplicity : Option ℤ
deriving DecidableEq, Repr

/-- Result of `ThesisScorer.score`, plus the number of model calls issued
(reasoning text is omitted: no claim mentions it). -/
structure ScoreResult where
  scores : ThesisScores
  is_disqualified : Bool
  disqualification_reason : Option String
  calls : ℕ
deriving DecidableEq, Repr

namespace ThesisScorer

/-- Clamping of a returned numeric score into [1,10]
(`ThesisScorer._extract_score`). -/
def extract_score (item : Option ℤ) : Option ℤ :=
  item.map fun score => max 1 (min 10 score)

/-- `ThesisScorer.score` from `src/processors/thesis_scorer.py`.
`entities_industries` is `entities["industries"]`, `industry` the declared
industry (appended to the check list only when non-empty, Python
truthiness of `if industry:`), and `llm` the parsed model response
(`none` = call or JSON-parse failure, which degrades to empty scores).
The pre-check returns on the first matching industry without a call. -/
def score (entities_industries : List String) (industry : String)
    (llm : Option LLMScoreResult) : ScoreResult :=
  let industries_to_check :=
    entities_industries ++ (if industry ≠ "" then [industry] else [])
  match industries_to_check.find? (fun ind => is_disqualified_industry ind) with
  | some ind =>
      { scores := ThesisScores.allOnes
        is_disqualified := true
        disqualification_reason :=
          some ("Industry " ++ ind ++ " is in the disqualified list (regulated)")
        calls := 0 }
  | none =>
      match llm with
      | none =>
          { scores := ThesisScores.empty
            is_disqualified := false
            disqualification_reason := none
            calls := 1 }
      | some result =>
          { scores :=
              { demand_evidence := extract_score result.demand_evidence
                competition_gap := extract_score result.competition_gap
                trend_timing := extract_score result.trend_timing
                solo_buildability := extract_score result.solo_buildability
                clear_monetisation := extract_score result.clear_monetisation
                regulatory_simplicity := extract_score result.regulatory_simplicity }
            is_disqualified := result.disqualified
            disqualification_reason := result.disqualification_reason
            calls := 1 }

/-- The fixed per-factor weights from the `THESIS` table in
`src/utils/config.py` paired with each stored factor, in the iteration
order of `calculate_weighted_score`. -/
def weighted_entries (scores : ThesisScores) : List (Option ℤ × ℚ) :=
  [(scores.demand_evidence, 1), (scores.competition_gap, 1),
   (scores.trend_timing, 4/5), (scores.solo_buildability, 1),
   (scores.clear_monetisation, 1), (scores.regulatory_simplicity, 1)]

/-- `ThesisScorer.calculate_weighted_score`: weighted mean of the present
factors; 0.0 when no factor is present. -/
def calculate_weighted_score (scores : ThesisScores) : ℚ :=
  let acc := (weighted_entries scores).foldl
    (fun (acc : ℚ × ℚ) (e : Option ℤ × ℚ) =>
      match e.1 with
      | some score => (acc.1 + score * e.2, acc.2 + e.2)
      | none => acc)
    (0, 0)
  if acc.2 = 0 then 0 else acc.1 / acc.2

end ThesisScorer

/-- Dot product of two equal-length vectors (`np.dot` on lists). -/
def dotp (a b : List ℝ) : ℝ :=
  (List.zipWith (fun x y => x * y) a b).sum

/-- Euclidean norm of a vector (`np.linalg.norm`). -/
noncomputable def vnorm (a : List ℝ) : ℝ :=
  Real.sqrt (dotp a a)

/-- `cosine_similarity` from `src/processors/novelty.py`: 0 when either
vector has zero norm, else the normalized dot product. -/
noncomputable def cosine_similarity (a b : List ℝ) : ℝ :=
  if vnorm a = 0 ∨ vnorm b = 0 then 0
  else dotp a b / (vnorm a * vnorm b)

/-- The similarity list built inside `calculate_novelty_score`: one cosine
similarity per recent embedding that is not `None`. -/
noncomputable def similarity_list (new_embedding : List ℝ)
    (recent_embeddings : List (Option (List ℝ))) : List ℝ :=
  recent_embeddings.filterMap fun e =>
    e.map fun v => cosine_similarity new_embedding v

/-- Python `max` over a non-empty list (left fold; the `[]` case is never
reached by the caller, which tests emptiness first). -/
def py_max : List ℝ → ℝ
  | [] => 0
  | x :: xs => xs.foldl max x

/-- `calculate_novelty_score` from `src/processors/novelty.py`. An absent
new embedding is the empty list (Python truthiness of `if not
new_embedding:` covers both `None` and `[]`). -/
noncomputable def calculate_novelty_score (new_embedding : List ℝ)
    (recent_embeddings : List (Option (List ℝ))) (threshold : ℝ) : ℝ :=
  if recent_embeddings = [] then 1
  else if new_embedding = [] then 1/2
  else
    let similarities := similarity_list new_embedding recent_embeddings
    if similarities = [] then 1
    else
      let max_similarity := py_max similarities
      if threshold < max_similarity then 0
      else 1 - max_similarity / threshold

/-- The inner loop of `cluster_by_embedding`: scan the indices after the
seed `i` (passed as `js`) and absorb every index that is unassigned, has a
non-`None` embedding, and whose similarity to the seed reaches the
threshold. -/
noncomputable def cluster_scan (embeddings : List (Option (List ℝ)))
    (threshold : ℝ) (seed : List ℝ) (assigned : List ℕ) : List ℕ → List ℕ
  | [] => []
  | j :: js =>
      if j ∈ assigned then cluster_scan embeddings threshold seed assigned js
      else
        match embeddings.getD j none with
        | none => cluster_scan embeddings threshold seed assigned js
        | some ej =>
            if threshold ≤ cosine_similarity seed ej then
              j :: cluster_scan embeddings threshold seed assigned js
            else cluster_scan embeddings threshold seed assigned js

/-- The outer loop of `cluster_by_embedding`: iterate the index list in
order; for each unassigned index with an embedding, open a cluster seeded
there, absorb the later similar indices, and keep the cluster when it
reaches the minimum size. `assigned` accumulates every index placed in any
cluster so far. -/
noncomputable def cluster_loop (embeddings : List (Option (List ℝ)))
    (threshold : ℝ) (min_cluster_size : ℕ) :
    List ℕ → List ℕ → List (List ℕ)
  | [], _ => []
  | i :: rest, assigned =>
      if i ∈ assigned then
        cluster_loop embeddings threshold min_cluster_size rest assigned
      else
        match embeddings.getD i none with
        | none => cluster_loop embeddings threshold min_cluster_size rest assigned
        | some ei =>
            let cluster :=
              i :: cluster_scan embeddings threshold ei (assigned ++ [i]) rest
            (if min_cluster_size ≤ cluster.length then [cluster] else []) ++
              cluster_loop embeddings threshold min_cluster_size rest
                (assigned ++ cluster)

/-- `cluster_by_embedding` from `src/processors/novelty.py`: greedy
single-pass clustering over the indices `0, ..., n-1`. -/
noncomputable def cluster_by_embedding (embeddings : List (Option (List ℝ)))
    (threshold : ℝ) (min_cluster_size : ℕ) : List (List ℕ) :=
  cluster_loop embeddings threshold min_cluster_size
    (List.range embeddings.length) []

/-- `calculate_velocity_score` from `src/processors/velocity.py`, on the
mention-count triple (7d, 14d, 30d). `acceleration ** 0.5` is the real
square root (the acceleration is non-negative on every path). -/
noncomputable def calculate_velocity_score (count_7d count_14d count_30d : ℕ)
    (baseline_growth : ℝ) : ℝ :=
  if count_7d = 0 then 0
  else
    let previous_week : ℤ := (count_14d : ℤ) - (count_7d : ℤ)
    let wow_growth : ℝ :=
      if 0 < previous_week then (count_7d : ℝ) / (previous_week : ℝ)
      else min ((count_7d : ℝ) / 5) 3
    let acceleration : ℝ :=
      if 0 < count_30d then ((count_7d : ℝ) / (count_30d : ℝ)) / (1/4)
      else 1
    let raw_velocity := (wow_growth / baseline_growth) * Real.sqrt acceleration
    min 1 (raw_velocity / 2)

/-- The fields of `ProcessedSignal` (from `src/database/models.py`) that the
pattern detectors and the opportunity generator read. Identifiers are
modelled as naturals; prompt-only text fields are omitted. -/
structure ProcessedSignal where
  id : ℕ
  raw_signal_id : ℕ
  signal_type : Option String
  keywords : List String
  thesis_scores : ThesisScores
  novelty_score : Option ℚ
  velocity_score : Option ℚ
  is_disqualified : Bool
  embedding : Option (List ℝ)

/-- The fields of `PatternMatch` that the opportunity generator reads. -/
structure PatternMatch where
  id : ℕ
  pattern_type : String
  signal_ids : List ℕ
  title : String
  confidence_score : ℚ
  opportunity_score : ℚ

/-- Mean of a list of collected factor values, `sum(v) / len(v) if v else
None` in the three aggregators. -/
def factor_mean (v : List ℤ) : Option ℚ :=
  if v = [] then none else some ((v.sum : ℚ) / (v.length : ℚ))

/-- Collect one factor across signals the way the v2.0 aggregators do:
Python truthiness (`if s.thesis_scores.demand_evidence:`) keeps a value
only when it is present and non-zero. -/
def collect_factor (signals : List ProcessedSignal)
    (f : ThesisScores → Option ℤ) : List ℤ :=
  signals.filterMap fun s =>
    match f s.thesis_scores with
    | some n => if n ≠ 0 then some n else none
    | none => none

/-- `VelocitySpikeDetector._aggregate_thesis_scores` from
`src/patterns/velocity_spike.py`: per-factor mean of the collected values
over the six v2.0 factors, in source key order. -/
def velocity_spike_aggregate_thesis_scores (signals : List ProcessedSignal) :
    List (String × Option ℚ) :=
  [("demand_evidence", factor_mean (collect_factor signals (·.demand_evidence))),
   ("competition_gap", factor_mean (collect_factor signals (·.competition_gap))),
   ("trend_timing", factor_mean (collect_factor signals (·.trend_timing))),
   ("solo_buildability", factor_mean (collect_factor signals (·.solo_buildability))),
   ("clear_monetisation", factor_mean (collect_factor signals (·.clear_monetisation))),
   ("regulatory_simplicity", factor_mean (collect_factor signals (·.regulatory_simplicity)))]

/-- `GapDetector._aggregate_thesis_scores` from
`src/patterns/gap_detector.py`: textually the same aggregation as the
velocity-spike one. -/
def gap_aggregate_thesis_scores (signals : List ProcessedSignal) :
    List (String × Option ℚ) :=
  [("demand_evidence", factor_mean (collect_factor signals (·.demand_evidence))),
   ("competition_gap", factor_mean (collect_factor signals (·.competition_gap))),
   ("trend_timing", factor_mean (collect_factor signals (·.trend_timing))),
   ("solo_buildability", factor_mean (collect_factor signals (·.solo_buildability))),
   ("clear_monetisation", factor_mean (collect_factor signals (·.clear_monetisation))),
   ("regulatory_simplicity", factor_mean (collect_factor signals (·.regulatory_simplicity)))]

/-- `ConvergenceDetector._aggregate_thesis_scores` from
`src/patterns/convergence.py`. Its loop body reads the v1.0 factor fields
`ai_leverage`, `trust_scarcity`, `physical_digital`, `incumbent_decay`,
`speed_advantage` and `execution_fit` from each `thesis_scores`, but the
`ThesisScores` model defines none of them, so the first loop iteration
raises `AttributeError` (a pydantic model instance is always truthy, so
`if s.thesis_scores:` does not guard it). On the empty list the loop body
never runs and the v1.0-keyed all-`None` dict is returned. -/
def convergence_aggregate_thesis_scores (signals : List ProcessedSignal) :
    Except String (List (String × Option ℚ)) :=
  match signals with
  | [] =>
      Except.ok
        [("ai_leverage", none), ("trust_scarcity", none),
         ("physical_digital", none), ("incumbent_decay", none),
         ("speed_advantage", none), ("execution_fit", none)]
  | _ :: _ =>
      Except.error ("AttributeError: ThesisScores has no attribute ai_leverage")

/-- The signal/embedding pair list built at the top of
`ConvergenceDetector.detect` (Python truthiness of `if s.embedding:`
drops both `None` and empty embeddings). Index `k` of the embedding list
corresponds to `signal_map[k]`. -/
noncomputable def convergence_pairs (signals : List ProcessedSignal) :
    List (ProcessedSignal × List ℝ) :=
  signals.filterMap fun s =>
    match s.embedding with
    | some e => if e = [] then none else some (s, e)
    | none => none

/-- The cluster-selection stage of `ConvergenceDetector.detect`
(`src/patterns/convergence.py`, lines 68-105): returns exactly the
clusters of signals for which `_analyze_convergence` — the validation
model call — is invoked. A cluster survives when it has at least
`min_signals` members and its members carry at least 2 distinct
`raw_signal_id` values (the source builds `source_categories` as
`set(s.raw_signal_id for s in cluster_signals)`). -/
noncomputable def convergence_validated_clusters (signals : List ProcessedSignal)
    (min_signals : ℕ) (similarity_threshold : ℝ) :
    List (List ProcessedSignal) :=
  if signals.length < min_signals then []
  else
    let pairs := convergence_pairs signals
    if pairs.length < min_signals then []
    else
      let clusters := cluster_by_embedding (pairs.map fun p => some p.2)
        similarity_threshold min_signals
      (clusters.map fun cluster_indices =>
          cluster_indices.filterMap fun i => (pairs.get? i).map Prod.fst).filter
        fun cluster_signals =>
          decide (min_signals ≤ cluster_signals.length) &&
            decide (2 ≤ (cluster_signals.map (·.raw_signal_id)).dedup.length)

/-- Parsed outcome of the opportunity-generation model call (only the
fields the embedded control flow reads; the writeup text fields are
carried opaquely by the stored opportunity and are omitted here). -/
structure LLMOpportunityResult where
  business_name : Option String
  verdict : Option String
deriving DecidableEq, Repr

/-- The stored opportunity as far as the claims inspect it. -/
structure Opportunity where
  title : String
  pattern_ids : List ℕ
  signal_ids : List ℕ
  verdict : Option String
deriving DecidableEq, Repr

namespace OpportunityGenerator

/-- `OpportunityGenerator.generate_from_pattern` from
`src/reasoning/opportunity_generator.py`. The prompt is built from
`signals[:10]` with disqualified signals filtered out, and the model call
is then issued unconditionally (there is no emptiness check), so the call
count is 1 on every path; `llm = none` models a call or parse failure,
which returns `None`. The second component is the number of model calls. -/
def generate_from_pattern (llm : Option LLMOpportunityResult)
    (pattern : PatternMatch) (signals : List ProcessedSignal) :
    Option Opportunity × ℕ :=
  let formatted_signals :=
    (signals.take 10).filter fun s => !s.is_disqualified
  let _ := formatted_signals
  match llm with
  | none => (none, 1)
  | some result =>
      (some
        { title := result.business_name.getD pattern.title
          pattern_ids := [pattern.id]
          signal_ids := pattern.signal_ids
          verdict := result.verdict }, 1)

/-- Lookup in the `signal_map` dict built by `generate_from_patterns`
(`{s.id: s for s in signals}`: on duplicate ids the later entry wins). -/
def signal_map_find (signals : List ProcessedSignal) (sid : ℕ) :
    Option ProcessedSignal :=
  signals.reverse.find? fun s => s.id = sid

/-- The per-pattern loop body of `generate_from_patterns`: the related
signals are those of the pattern's `signal_ids` found in the map and not
disqualified. -/
def related_signals (signals : List ProcessedSignal)
    (pattern : PatternMatch) : List ProcessedSignal :=
  pattern.signal_ids.filterMap fun sid =>
    match signal_map_find signals sid with
    | some s => if !s.is_disqualified then some s else none
    | none => none

/-- `OpportunityGenerator.generate_from_patterns` from
`src/reasoning/opportunity_generator.py`: filter patterns by minimum
opportunity score, then for each pattern either skip it (when every
related signal is disqualified or missing — zero model calls) or run
`generate_from_pattern` on the related signals. The oracle `llm` gives
the parsed model response per pattern. Returns the generated
opportunities and the total number of model calls. -/
def generate_from_patterns (llm : PatternMatch → Option LLMOpportunityResult)
    (patterns : List PatternMatch) (signals : List ProcessedSignal)
    (min_score : ℚ) : List Opportunity × ℕ :=
  let high_score_patterns :=
    patterns.filter fun p => decide (min_score ≤ p.opportunity_score)
  high_score_patterns.foldl
    (fun acc p =>
      let related := related_signals signals p
      if related.isEmpty then acc
      else
        match generate_from_pattern (llm p) p related with
        | (some opportunity, calls) =>
            (acc.1 ++ [opportunity], acc.2 + calls)
        | (none, calls) => (acc.1, acc.2 + calls))
    ([], 0)

end OpportunityGenerator

/-!
Concrete fixtures used by counterexamples, failing-input evaluations and
witnesses.
-/

/-- A model response asserting disqualification while carrying ordinary
factor scores. -/
def llm_disq_response : LLMScoreResult :=
  { disqualified := true
    disqualification_reason := some "model says regulated"
    demand_evidence := some 7
    competition_gap := some 7
    trend_timing := some 7
    solo_buildability := some 7
    clear_monetisation := some 7
    regulatory_simplicity := some 7 }

/-- A well-formed, non-disqualifying model response. -/
def llm_ok_response : LLMScoreResult :=
  { disqualified := false
    disqualification_reason := none
    demand_evidence := some 8
    competition_gap := some 8
    trend_timing := some 8
    solo_buildability := some 8
    clear_monetisation := some 8
    regulatory_simplicity := some 8 }

/-- A signal flagged as disqualified. -/
def disq_signal : ProcessedSignal :=
  { id := 1
    raw_signal_id := 1
    signal_type := some "complaint"
    keywords := []
    thesis_scores := ThesisScores.allOnes
    novelty_score := none
    velocity_score := none
    is_disqualified := true
    embedding := none }

/-- A pattern whose only supporting record is `disq_signal`. -/
def pat_example : PatternMatch :=
  { id := 5
    pattern_type := "gap"
    signal_ids := [1]
    title := "p"
    confidence_score := 1/2
    opportunity_score := 3/5 }

/-- A parsed opportunity-generation model response. -/
def llm_opp_response : LLMOpportunityResult :=
  { business_name := some "Acme"
    verdict := some "EXPLORE" }

/-- A signal carrying demand-evidence 4 and trend-timing 6. -/
def sig_scores_a : ProcessedSignal :=
  { id := 2
    raw_signal_id := 2
    signal_type := some "complaint"
    keywords := ["invoicing"]
    thesis_scores := ⟨some 4, none, some 6, none, none, none⟩
    novelty_score := none
    velocity_score := none
    is_disqualified := false
    embedding := none }

/-- A signal carrying demand-evidence 8 only. -/
def sig_scores_b : ProcessedSignal :=
  { id := 3
    raw_signal_id := 3
    signal_type := some "trend"
    keywords := ["invoicing"]
    thesis_scores := ⟨some 8, none, none, none, none, none⟩
    novelty_score := none
    velocity_score := none
    is_disqualified := false
    embedding := none }

/-- A one-dimensional embedded signal of signal type trend with
raw-signal id `10 + n`. -/
noncomputable def conv_sig (n : ℕ) : ProcessedSignal :=
  { id := n
    raw_signal_id := 10 + n
    signal_type := some "trend"
    keywords := []
    thesis_scores := ThesisScores.empty
    novelty_score := none
    velocity_score := none
    is_disqualified := false
    embedding := some [1] }

/-!
Theorems.
-/

/-- The short-circuit behaviour of `ThesisScorer.score`: when some checked
industry matches the disqualified list, the result is the all-ones vector,
disqualified, with no model call. -/
theorem score_short_circuit_of_exists (entities_industries : List String)
    (industry : String) (llm : Option LLMScoreResult)
    (h : ∃ ind ∈ entities_industries ++
        (if industry ≠ "" then [industry] else []),
      is_disqualified_industry ind = true) :
    (ThesisScorer.score entities_industries industry llm).scores =
        ThesisScores.allOnes ∧
      (ThesisScorer.score entities_industries industry llm).is_disqualified =
        true ∧
      (ThesisScorer.score entities_industries industry llm).calls = 0 := by
  have hsome : ((entities_industries ++
      (if industry ≠ "" then [industry] else [])).find?
        (fun ind => is_disqualified_industry ind)).isSome := by
    rcases h with ⟨ind, hmem, hdq⟩
    exact List.find?_isSome.mpr ⟨ind, hmem, hdq⟩
  rcases Option.isSome_iff_exists.mp hsome with ⟨ind, hfind⟩
  simp only [ThesisScorer.score, hfind]
  exact ⟨trivial, trivial, trivial⟩

/-- C2 (counterexample): when the language model itself asserts
disqualification, `ThesisScorer.score` keeps the model's clamped scores,
so the result is disqualified but its vector is not all 1s — the claim
that every disqualified result carries all six factors equal to 1 is
false on the code. -/
theorem score_model_disqualified_not_all_ones :
    (ThesisScorer.score [] "pet grooming" (some llm_disq_response)).is_disqualified
        = true ∧
      (ThesisScorer.score [] "pet grooming" (some llm_disq_response)).scores ≠
        ThesisScores.allOnes := by decide

/-- C2 (amended): every `ThesisScorer.score` result produced without a
model call — the industry-list pre-check path — is disqualified and
carries the all-ones `ThesisScoreVector`; a model-asserted
disqualification instead keeps the model's clamped scores. -/
theorem score_zero_calls_all_ones (entities_industries : List String)
    (industry : String) (llm : Option LLMScoreResult)
    (h : (ThesisScorer.score entities_industries industry llm).calls = 0) :
    (ThesisScorer.score entities_industries industry llm).is_disqualified =
        true ∧
      (ThesisScorer.score entities_industries industry llm).scores =
        ThesisScores.allOnes := by
  cases hfind : (entities_industries ++
      (if industry ≠ "" then [industry] else [])).find?
        (fun ind => is_disqualified_industry ind) with
  | some ind =>
      refine ⟨?_, ?_⟩ <;> simp only [ThesisScorer.score, hfind]
  | none =>
      exfalso
      have h2 : (ThesisScorer.score entities_industries industry llm).calls
          = 1 := by
        cases llm <;> simp only [ThesisScorer.score, hfind]
      rw [h] at h2
      exact absurd h2 (by decide)

/-- Witness for `score_zero_calls_all_ones` at a concrete disqualified
industry. -/
theorem score_zero_calls_all_ones_witness :
    (ThesisScorer.score ["legal"] "" none).is_disqualified = true ∧
      (ThesisScorer.score ["legal"] "" none).scores = ThesisScores.allOnes :=
  score_zero_calls_all_ones ["legal"] "" none (by decide)

/-- C4 (counterexample): the empty declared industry string matches every
entry of the disqualified list under the either-direction substring test,
yet `ThesisScorer.score` does not short-circuit on it (the `if industry:`
truthiness guard skips empty strings), so the claim as stated fails: the
model is called and the result is not disqualified. -/
theorem score_empty_declared_industry_not_short_circuited :
    is_disqualified_industry "" = true ∧
      (ThesisScorer.score [] "" (some llm_ok_response)).is_disqualified =
        false ∧
      (ThesisScorer.score [] "" (some llm_ok_response)).calls = 1 ∧
      (ThesisScorer.score [] "" (some llm_ok_response)).scores ≠
        ThesisScores.allOnes := by decide

/-- C4 (amended): for any input with an extracted industry string, or a
non-empty declared industry string, matching a disqualified-list entry
(case-insensitive substring in either direction), `ThesisScorer.score`
returns all six factor scores = 1 and is_disqualified = true without any
model call. -/
theorem score_disqualified_industry_short_circuits
    (entities_industries : List String) (industry : String)
    (llm : Option LLMScoreResult)
    (h : (∃ ind ∈ entities_industries, is_disqualified_industry ind = true) ∨
      (industry ≠ "" ∧ is_disqualified_industry industry = true)) :
    (ThesisScorer.score entities_industries industry llm).scores =
        ThesisScores.allOnes ∧
      (ThesisScorer.score entities_industries industry llm).is_disqualified =
        true ∧
      (ThesisScorer.score entities_industries industry llm).calls = 0 := by
  apply score_short_circuit_of_exists
  rcases h with ⟨ind, hmem, hdq⟩ | ⟨hne, hdq⟩
  · exact ⟨ind, List.mem_append_left _ hmem, hdq⟩
  · exact ⟨industry, List.mem_append_right _ (by simp [hne]), hdq⟩

/-- Witness for `score_disqualified_industry_short_circuits` at the
extracted industry healthcare. -/
theorem score_disqualified_industry_short_circuits_witness :
    (ThesisScorer.score ["healthcare"] "x" none).scores =
        ThesisScores.allOnes ∧
      (ThesisScorer.score ["healthcare"] "x" none).is_disqualified = true ∧
      (ThesisScorer.score ["healthcare"] "x" none).calls = 0 :=
  score_disqualified_industry_short_circuits ["healthcare"] "x" none
    (Or.inl ⟨"healthcare", by decide, by decide⟩)

/-- C10: `is_disqualified_industry` accepts the empty string (it is a
substring of every list entry), so `ThesisScorer.score` short-circuits to
the disqualified all-ones result, without a model call, whenever the
extracted entity industries contain an empty string. -/
theorem score_empty_extracted_industry_disqualifies :
    is_disqualified_industry "" = true ∧
      ∀ (entities_industries : List String) (industry : String)
        (llm : Option LLMScoreResult),
        "" ∈ entities_industries →
        (ThesisScorer.score entities_industries industry llm).is_disqualified
            = true ∧
          (ThesisScorer.score entities_industries industry llm).scores =
            ThesisScores.allOnes ∧
          (ThesisScorer.score entities_industries industry llm).calls = 0 := by
  constructor
  · decide
  · intro entities_industries industry llm hmem
    have h := score_short_circuit_of_exists entities_industries industry llm
      ⟨"", List.mem_append_left _ hmem, by decide⟩
    exact ⟨h.2.1, h.1, h.2.2⟩

/-- Witness for `score_empty_extracted_industry_disqualifies` with the
extracted industry list containing only the empty string. -/
theorem score_empty_extracted_industry_disqualifies_witness :
    (ThesisScorer.score [""] "pet" none).is_disqualified = true ∧
      (ThesisScorer.score [""] "pet" none).scores = ThesisScores.allOnes ∧
      (ThesisScorer.score [""] "pet" none).calls = 0 :=
  score_empty_extracted_industry_disqualifies.2 [""] "pet" none (by decide)

/-- C8: the weighted aggregate score is exactly 0 when no factor is
present, and exactly `v` when all six factors are present and equal to
`v` — the fixed per-factor weights, including trend_timing's 0.8,
normalize out. -/
theorem calculate_weighted_score_empty_and_uniform :
    ThesisScorer.calculate_weighted_score ThesisScores.empty = 0 ∧
      ∀ v : ℤ,
        ThesisScorer.calculate_weighted_score
          ⟨some v, some v, some v, some v, some v, some v⟩ = (v : ℚ) := by
  constructor
  · rfl
  · intro v
    simp only [ThesisScorer.calculate_weighted_score,
      ThesisScorer.weighted_entries, List.foldl]
    norm_num
    rw [div_eq_iff (by norm_num : (29 : ℚ)/5 ≠ 0)]
    ring

/-- C7: for every mention-count triple of non-negative integers, the
velocity score at the default baseline growth 2.0 lies in [0,1], and the
all-zero triple yields exactly 0 (no division error: the zero-count guard
returns before any quotient is formed). -/
theorem calculate_velocity_score_bounds :
    (∀ count_7d count_14d count_30d : ℕ,
      0 ≤ calculate_velocity_score count_7d count_14d count_30d 2 ∧
        calculate_velocity_score count_7d count_14d count_30d 2 ≤ 1) ∧
      calculate_velocity_score 0 0 0 2 = 0 := by
  constructor
  · intro count_7d count_14d count_30d
    unfold calculate_velocity_score
    by_cases h7 : count_7d = 0
    · simp [h7]
    · rw [if_neg h7]
      have hwow : (0 : ℝ) ≤
          (if 0 < (count_14d : ℤ) - (count_7d : ℤ) then
            (count_7d : ℝ) / (((count_14d : ℤ) - (count_7d : ℤ) : ℤ) : ℝ)
          else min ((count_7d : ℝ) / 5) 3) := by
        split
        · next hp =>
            apply div_nonneg (Nat.cast_nonneg _)
            exact_mod_cast le_of_lt hp
        · exact le_min (div_nonneg (Nat.cast_nonneg _) (by norm_num))
            (by norm_num)
      have hraw : (0 : ℝ) ≤
          ((if 0 < (count_14d : ℤ) - (count_7d : ℤ) then
            (count_7d : ℝ) / (((count_14d : ℤ) - (count_7d : ℤ) : ℤ) : ℝ)
          else min ((count_7d : ℝ) / 5) 3) / 2) *
            Real.sqrt (if 0 < count_30d then
              ((count_7d : ℝ) / (count_30d : ℝ)) / (1/4) else 1) :=
        mul_nonneg (div_nonneg hwow (by norm_num)) (Real.sqrt_nonneg _)
      constructor
      · exact le_min (by norm_num) (div_nonneg hraw (by norm_num))
      · exact min_le_left _ _
  · simp [calculate_velocity_score]

/-- Cosine similarity of the one-dimensional unit vector with itself. -/
theorem cosine_one_one : cosine_similarity [(1 : ℝ)] [1] = 1 := by
  norm_num [cosine_similarity, vnorm, dotp, Real.sqrt_one]

/-- Cosine similarity of opposite one-dimensional unit vectors. -/
theorem cosine_one_neg_one : cosine_similarity [(1 : ℝ)] [-1] = -1 := by
  norm_num [cosine_similarity, vnorm, dotp, Real.sqrt_one]

/-- A left fold by max never goes below its initial value. -/
theorem le_foldl_max (xs : List ℝ) : ∀ b : ℝ, b ≤ xs.foldl max b := by
  induction xs with
  | nil => intro b; exact le_refl b
  | cons x xs ih =>
      intro b
      calc b ≤ max b x := le_max_left b x
        _ ≤ (xs.foldl max (max b x)) := ih (max b x)

/-- C6 (counterexample): with a negative maximum similarity the novelty
score exceeds 1, so the claim that `calculate_novelty_score` always
returns a value in [0,1] is false: at new vector [1], recent set
{[-1]} and the default threshold 0.85 the score is 1 + 1/0.85 = 37/17. -/
theorem novelty_score_exceeds_one :
    1 < calculate_novelty_score [1] [some [-1]] (85/100) := by
  have hs : similarity_list [1] [some [-1]] = [-1] := by
    simp [similarity_list, cosine_one_neg_one]
  norm_num [calculate_novelty_score, hs, py_max]

/-- C6 (amended): `calculate_novelty_score` returns 1.0 on an empty recent
set, the 0.5 sentinel on an absent new vector, 0 when the maximum
similarity exceeds the threshold and `1 - max_similarity/threshold`
otherwise; for a positive threshold the result is always ≥ 0, and it is
≤ 1 whenever every pairwise similarity is non-negative (a negative
maximum similarity pushes it above 1). -/
theorem novelty_score_branches_and_bounds (new_embedding : List ℝ)
    (recent_embeddings : List (Option (List ℝ))) (threshold : ℝ)
    (hthr : 0 < threshold) :
    (recent_embeddings = [] →
        calculate_novelty_score new_embedding recent_embeddings threshold
          = 1) ∧
      (recent_embeddings ≠ [] → new_embedding = [] →
        calculate_novelty_score new_embedding recent_embeddings threshold
          = 1/2) ∧
      (recent_embeddings ≠ [] → new_embedding ≠ [] →
        similarity_list new_embedding recent_embeddings ≠ [] →
        threshold < py_max (similarity_list new_embedding recent_embeddings) →
        calculate_novelty_score new_embedding recent_embeddings threshold
          = 0) ∧
      (recent_embeddings ≠ [] → new_embedding ≠ [] →
        similarity_list new_embedding recent_embeddings ≠ [] →
        ¬threshold <
            py_max (similarity_list new_embedding recent_embeddings) →
        calculate_novelty_score new_embedding recent_embeddings threshold
          = 1 - py_max (similarity_list new_embedding recent_embeddings)
            / threshold) ∧
      0 ≤ calculate_novelty_score new_embedding recent_embeddings threshold ∧
      ((∀ s ∈ similarity_list new_embedding recent_embeddings, 0 ≤ s) →
        calculate_novelty_score new_embedding recent_embeddings threshold
          ≤ 1) := by
  refine ⟨?_, ?_, ?_, ?_, ?_, ?_⟩
  · intro hr; simp [calculate_novelty_score, hr]
  · intro hr hn; simp [calculate_novelty_score, hr, hn]
  · intro hr hn hs hmax
    simp [calculate_novelty_score, hr, hn, hs, hmax]
  · intro hr hn hs hmax
    simp [calculate_novelty_score, hr, hn, hs, hmax]
  · simp only [calculate_novelty_score]
    split
    · norm_num
    · split
      · norm_num
      · split
        · norm_num
        · split
          · exact le_refl 0
          · next hs hmax =>
              have hle : py_max (similarity_list new_embedding
                  recent_embeddings) ≤ threshold := le_of_not_lt hmax
              have : py_max (similarity_list new_embedding recent_embeddings)
                  / threshold ≤ 1 := (div_le_one hthr).mpr hle
              linarith
  · intro hnn
    simp only [calculate_novelty_score]
    split
    · norm_num
    · split
      · norm_num
      · split
        · norm_num
        · split
          · norm_num
          · next hs hmax =>
              have hpos : 0 ≤ py_max (similarity_list new_embedding
                  recent_embeddings) := by
                cases hsim : similarity_list new_embedding recent_embeddings
                  with
                | nil => exact absurd hsim hs
                | cons x xs =>
                    have hx : 0 ≤ x := by
                      apply hnn
                      rw [hsim]
                      exact List.mem_cons_self x xs
                    rw [py_max]
                    exact le_trans hx (le_foldl_max xs x)
              have : 0 ≤ py_max (similarity_list new_embedding
                  recent_embeddings) / threshold :=
                div_nonneg hpos (le_of_lt hthr)
              linarith

/-- Witness for `novelty_score_branches_and_bounds`: at new vector [1],
recent set {[1]} and threshold 0.85 the score is in [0,1]. -/
theorem novelty_score_branches_and_bounds_witness :
    0 ≤ calculate_novelty_score [1] [some [1]] (85/100) ∧
      calculate_novelty_score [1] [some [1]] (85/100) ≤ 1 :=
  ⟨(novelty_score_branches_and_bounds [1] [some [1]] (85/100)
      (by norm_num)).2.2.2.2.1,
    (novelty_score_branches_and_bounds [1] [some [1]] (85/100)
      (by norm_num)).2.2.2.2.2
      (by norm_num [similarity_list, cosine_one_one])⟩

/-- C3 (counterexample): `generate_from_pattern` called directly with a
pattern whose only supporting record is disqualified filters that record
out of the prompt but still issues its model call (one call, not zero)
and can still return an opportunity, so the claim as stated is false. -/
theorem generate_from_pattern_calls_model_when_all_disqualified :
    (OpportunityGenerator.generate_from_pattern (some llm_opp_response)
        pat_example [disq_signal]).2 = 1 ∧
      (OpportunityGenerator.generate_from_pattern (some llm_opp_response)
        pat_example [disq_signal]).1.isSome = true := by decide

/-- C3 (amended): in the batch path `generate_from_patterns`, a pattern
whose supporting records are all disqualified is skipped before the
prompt is built — no opportunity and zero model calls; `generate_from_pattern`
itself filters disqualified records out of the prompt but issues exactly
one model call on every input, even when no records remain. -/
theorem generate_from_patterns_skips_all_disqualified
    (llm : PatternMatch → Option LLMOpportunityResult)
    (llm2 : Option LLMOpportunityResult)
    (patterns : List PatternMatch) (signals : List ProcessedSignal)
    (min_score : ℚ) (p : PatternMatch) (sigs : List ProcessedSignal)
    (h : ∀ s ∈ signals, s.is_disqualified = true) :
    OpportunityGenerator.generate_from_patterns llm patterns signals
        min_score = ([], 0) ∧
      (OpportunityGenerator.generate_from_pattern llm2 p sigs).2 = 1 := by
  constructor
  · have hrel : ∀ q : PatternMatch,
        (OpportunityGenerator.related_signals signals q).isEmpty = true := by
      intro q
      rw [List.isEmpty_iff]
      rw [OpportunityGenerator.related_signals, List.filterMap_eq_nil_iff]
      intro sid _
      cases hfind : OpportunityGenerator.signal_map_find signals sid with
      | none => rfl
      | some s =>
          have hmem : s ∈ signals := by
            have := List.mem_of_find?_eq_some hfind
            exact List.mem_reverse.mp this
          simp [hfind, h s hmem]
    rw [OpportunityGenerator.generate_from_patterns]
    generalize (patterns.filter
      fun q => decide (min_score ≤ q.opportunity_score)) = l
    induction l with
    | nil => rfl
    | cons q l ih =>
        rw [List.foldl_cons]
        simp only [hrel q, if_true]
        exact ih
  · cases llm2 <;> rfl

/-- Witness for `generate_from_patterns_skips_all_disqualified` on a
single pattern whose only supporting record is disqualified. -/
theorem generate_from_patterns_skips_all_disqualified_witness :
    OpportunityGenerator.generate_from_patterns (fun _ => none)
        [pat_example] [disq_signal] (1/2) = ([], 0) ∧
      (OpportunityGenerator.generate_from_pattern (some llm_opp_response)
        pat_example []).2 = 1 :=
  generate_from_patterns_skips_all_disqualified (fun _ => none)
    (some llm_opp_response) [pat_example] [disq_signal] (1/2) pat_example []
    (by decide)

/-- C5: evaluation of the three aggregators at a concrete record list.
The velocity-spike and gap detectors map each of the six thesis factors to
the mean of its present values (absent when no record carries one), but
the convergence detector's aggregator reads the retired v1.0 factor
fields, which `ThesisScores` does not define, so on any non-empty record
list it raises instead of producing the six-factor means (the exception is
caught by `_analyze_convergence`, which then drops the pattern). -/
theorem aggregate_thesis_scores_detectors_evaluation :
    velocity_spike_aggregate_thesis_scores [sig_scores_a, sig_scores_b] =
        [("demand_evidence", some 6), ("competition_gap", none),
         ("trend_timing", some 6), ("solo_buildability", none),
         ("clear_monetisation", none), ("regulatory_simplicity", none)] ∧
      gap_aggregate_thesis_scores [sig_scores_a, sig_scores_b] =
        [("demand_evidence", some 6), ("competition_gap", none),
         ("trend_timing", some 6), ("solo_buildability", none),
         ("clear_monetisation", none), ("regulatory_simplicity", none)] ∧
      convergence_aggregate_thesis_scores [sig_scores_a, sig_scores_b] =
        Except.error
          ("AttributeError: ThesisScores has no attribute ai_leverage") :=
  ⟨by
      norm_num [velocity_spike_aggregate_thesis_scores, collect_factor,
        factor_mean, sig_scores_a, sig_scores_b, List.filterMap_cons,
        List.filterMap_nil, List.sum_cons, List.sum_nil]
      intro h
      exact absurd h (by decide),
    by
      norm_num [gap_aggregate_thesis_scores, collect_factor, factor_mean,
        sig_scores_a, sig_scores_b, List.filterMap_cons,
        List.filterMap_nil, List.sum_cons, List.sum_nil]
      intro h
      exact absurd h (by decide),
    rfl⟩

/-- Every index absorbed by the inner scan of the clustering loop was
unassigned when the scan started. -/
theorem cluster_scan_mem_not_assigned {embeddings : List (Option (List ℝ))}
    {threshold : ℝ} {seed : List ℝ} :
    ∀ (js assigned : List ℕ) (x : ℕ),
      x ∈ cluster_scan embeddings threshold seed assigned js →
      x ∉ assigned := by
  intro js
  induction js with
  | nil =>
      intro assigned x hx
      simp only [cluster_scan] at hx
      exact absurd hx (List.not_mem_nil x)
  | cons j js ih =>
      intro assigned x hx
      simp only [cluster_scan] at hx
      split at hx
      · exact ih assigned x hx
      · next hj =>
          split at hx
          · exact ih assigned x hx
          · split at hx
            · rcases List.mem_cons.mp hx with rfl | hx
              · exact hj
              · exact ih assigned x hx
            · exact ih assigned x hx

/-- Every index of every cluster produced by the clustering loop was
unassigned when the loop was entered. -/
theorem cluster_loop_mem_not_assigned {embeddings : List (Option (List ℝ))}
    {threshold : ℝ} {min_cluster_size : ℕ} :
    ∀ (is assigned : List ℕ) (c : List ℕ) (x : ℕ),
      c ∈ cluster_loop embeddings threshold min_cluster_size is assigned →
      x ∈ c → x ∉ assigned := by
  intro is
  induction is with
  | nil =>
      intro assigned c x hc _
      simp only [cluster_loop] at hc
      exact absurd hc (List.not_mem_nil c)
  | cons i rest ih =>
      intro assigned c x hc hx
      simp only [cluster_loop] at hc
      split at hc
      · exact ih assigned c x hc hx
      · next hi =>
          split at hc
          · exact ih assigned c x hc hx
          · next ei _ =>
              rcases List.mem_append.mp hc with hc | hc
              · have hcl : c = i :: cluster_scan embeddings threshold ei
                    (assigned ++ [i]) rest := by
                  by_cases hlen : min_cluster_size ≤
                      (i :: cluster_scan embeddings threshold ei
                        (assigned ++ [i]) rest).length
                  · rw [if_pos hlen] at hc
                    exact (List.mem_singleton.mp hc)
                  · rw [if_neg hlen] at hc
                    exact absurd hc (List.not_mem_nil c)
                subst hcl
                rcases List.mem_cons.mp hx with rfl | hx
                · exact hi
                · have := cluster_scan_mem_not_assigned rest
                    (assigned ++ [i]) x hx
                  intro hmem
                  exact this (List.mem_append_left _ hmem)
              · have := ih (assigned ++ (i :: cluster_scan embeddings
                    threshold ei (assigned ++ [i]) rest)) c x hc hx
                intro hmem
                exact this (List.mem_append_left _ hmem)

/-- Every cluster emitted by the clustering loop reaches the minimum
size. -/
theorem cluster_loop_min_size {embeddings : List (Option (List ℝ))}
    {threshold : ℝ} {min_cluster_size : ℕ} :
    ∀ (is assigned : List ℕ) (c : List ℕ),
      c ∈ cluster_loop embeddings threshold min_cluster_size is assigned →
      min_cluster_size ≤ c.length := by
  intro is
  induction is with
  | nil =>
      intro assigned c hc
      simp only [cluster_loop] at hc
      exact absurd hc (List.not_mem_nil c)
  | cons i rest ih =>
      intro assigned c hc
      simp only [cluster_loop] at hc
      split at hc
      · exact ih assigned c hc
      · split at hc
        · exact ih assigned c hc
        · rcases List.mem_append.mp hc with hc | hc
          · split at hc
            · next hlen =>
                rw [List.mem_singleton.mp hc]
                exact hlen
            · exact absurd hc (List.not_mem_nil c)
          · exact ih _ c hc

/-- The clusters emitted by the clustering loop are pairwise disjoint. -/
theorem cluster_loop_pairwise {embeddings : List (Option (List ℝ))}
    {threshold : ℝ} {min_cluster_size : ℕ} :
    ∀ (is assigned : List ℕ),
      (cluster_loop embeddings threshold min_cluster_size is
        assigned).Pairwise (fun c₁ c₂ => ∀ x ∈ c₁, x ∉ c₂) := by
  intro is
  induction is with
  | nil =>
      intro assigned
      simp only [cluster_loop]
      exact List.Pairwise.nil
  | cons i rest ih =>
      intro assigned
      simp only [cluster_loop]
      split
      · exact ih assigned
      · split
        · exact ih assigned
        · next ei _ =>
            rw [List.pairwise_append]
            refine ⟨?_, ih _, ?_⟩
            · split
              · exact List.pairwise_singleton _ _
              · exact List.Pairwise.nil
            · intro c₁ hc₁ c₂ hc₂ x hx₁
              have hcl : c₁ = i :: cluster_scan embeddings threshold ei
                  (assigned ++ [i]) rest := by
                split at hc₁
                · exact List.mem_singleton.mp hc₁
                · exact absurd hc₁ (List.not_mem_nil c₁)
              intro hx₂
              have hnot := cluster_loop_mem_not_assigned rest
                (assigned ++ (i :: cluster_scan embeddings threshold ei
                  (assigned ++ [i]) rest)) c₂ x hc₂ hx₂
              apply hnot
              apply List.mem_append_right
              rw [← hcl]
              exact hx₁

/-- C9: `cluster_by_embedding` returns only clusters of at least the
configured minimum size, and no index appears in more than one returned
cluster. -/
theorem cluster_by_embedding_min_size_and_disjoint
    (embeddings : List (Option (List ℝ))) (threshold : ℝ)
    (min_cluster_size : ℕ) :
    (∀ c ∈ cluster_by_embedding embeddings threshold min_cluster_size,
        min_cluster_size ≤ c.length) ∧
      (cluster_by_embedding embeddings threshold
        min_cluster_size).Pairwise (fun c₁ c₂ => ∀ x ∈ c₁, x ∉ c₂) := by
  constructor
  · intro c hc
    exact cluster_loop_min_size _ _ c hc
  · exact cluster_loop_pairwise _ _

/-- Evaluation of the greedy clustering on three identical one-dimensional
embeddings at threshold 0.75 and minimum size 3: a single cluster. -/
theorem cluster_three_identical :
    cluster_by_embedding [some [1], some [1], some [1]] ((3:ℝ)/4) 3 =
      [[0, 1, 2]] := by
  have hr : List.range 3 = [0, 1, 2] := rfl
  norm_num [cluster_by_embedding, cluster_loop, cluster_scan,
    cosine_one_one, List.getD, hr]

/-- C1: a cluster whose three records all share the single signal type
trend (but have three distinct raw_signal_id values) is not discarded by
`ConvergenceDetector.detect` — it reaches the validation model call,
because the coincidence filter counts distinct `raw_signal_id` values,
not distinct signal types as the claim and the source's own comments
state. -/
theorem convergence_validates_single_signal_type_cluster :
    convergence_validated_clusters [conv_sig 0, conv_sig 1, conv_sig 2] 3
        ((3:ℝ)/4) = [[conv_sig 0, conv_sig 1, conv_sig 2]] ∧
      (conv_sig 0).signal_type = some "trend" ∧
      (conv_sig 1).signal_type = some "trend" ∧
      (conv_sig 2).signal_type = some "trend" := by
  refine ⟨?_, rfl, rfl, rfl⟩
  have hpairs : convergence_pairs [conv_sig 0, conv_sig 1, conv_sig 2] =
      [(conv_sig 0, [1]), (conv_sig 1, [1]), (conv_sig 2, [1])] := by
    simp [convergence_pairs, conv_sig]
  have hclusters : cluster_by_embedding
      ((convergence_pairs [conv_sig 0, conv_sig 1, conv_sig 2]).map
        fun p => some p.2) ((3:ℝ)/4) 3 = [[0, 1, 2]] := by
    rw [hpairs]
    exact cluster_three_identical
  have h0 : (conv_sig 0).raw_signal_id = 10 := rfl
  have h1 : (conv_sig 1).raw_signal_id = 11 := rfl
  have h2 : (conv_sig 2).raw_signal_id = 12 := rfl
  simp only [convergence_validated_clusters]
  rw [hclusters, hpairs]
  norm_num [h0, h1, h2, List.dedup_cons_of_not_mem, List.dedup_cons_of_mem,
    List.filterMap_cons, List.getElem?_cons_zero, List.getElem?_cons_succ,
    List.filter_cons, List.dedup_nil, List.dedup_cons_of_not_mem]
